import Mathlib

/-!
Shallow embedding of the HackatonDoUp job-board backend (Express + Mongoose)
and verification of its specified properties.

Each definition mirrors one function of the JavaScript source. The document
store is modelled as explicit lists of records threaded through the
operations; timestamps are milliseconds as `Nat`; HTTP outcomes are status
codes plus payload fields. Outbound provider calls (identity verification,
payment status, AI completion) are modelled by passing their outcome as an
explicit argument, since the code only branches on success or failure of the
single request it issues.
-/

/-! ### Nonce store (auth controller, module-level `nonceStore : Map`) -/

/-- The in-memory nonce store: a map from nonce string to issuance time
(milliseconds).  Mirrors the module-level `new Map()` in the auth
controller. -/
abbrev NonceStore := List (String × Nat)

/-- `nonceStore.get(n)` : lookup of the issuance timestamp. -/
def nsGet (s : NonceStore) (n : String) : Option Nat :=
  (s.find? (fun p => p.1 == n)).map Prod.snd

/-- `nonceStore.has(n)`. -/
def nsHas (s : NonceStore) (n : String) : Bool :=
  (nsGet s n).isSome

/-- `nonceStore.set(n, t)` : JS `Map.set` replaces any previous binding. -/
def nsSet (s : NonceStore) (n : String) (t : Nat) : NonceStore :=
  (n, t) :: s.filter (fun p => p.1 != n)

/-- `nonceStore.delete(n)`. -/
def nsDelete (s : NonceStore) (n : String) : NonceStore :=
  s.filter (fun p => p.1 != n)

/-- `getNonce` : stores a freshly generated nonce with the current time and
returns it (the scheduled 5-minute cleanup timer is subsumed by the age check
performed at login). -/
def getNonce (s : NonceStore) (nonce : String) (now : Nat) : NonceStore :=
  nsSet s nonce now

/-- The 5-minute nonce lifetime, `5 * 60 * 1000` ms. -/
def fiveMinutesMs : Nat := 5 * 60 * 1000

/-! ### Wallet login, nonce-checking controller (`AuthController.walletAuth`,
the variant that validates, expires and consumes the nonce) -/

/-- A user document as touched by the wallet login path. -/
structure WUser where
  id : Nat
  username : String
  walletAddress : String
  profilePicture : Option String
deriving DecidableEq, Repr

/-- Request body of `POST /api/auth/login`. -/
structure WalletAuthReq where
  nonce : String
  username : String
  walletAddress : String
  profilePictureUrl : Option String
deriving DecidableEq, Repr

/-- HTTP outcome of an authentication request: status code, error payload
when any, and the `userId` claim carried by the issued token on success. -/
structure AuthResult where
  status : Nat
  error : Option String
  tokenUserId : Option Nat
deriving DecidableEq, Repr

/-- `AuthController.walletAuth` of the nonce-checking controller: reject an
unknown nonce (401), reject and drop an expired nonce (401), otherwise
consume the nonce and find-or-create the user by wallet address, issuing a
token.  Fresh user ids are the current length of the user list. -/
def walletAuthA (store : NonceStore) (users : List WUser) (req : WalletAuthReq)
    (now : Nat) : AuthResult × NonceStore × List WUser :=
  match nsGet store req.nonce with
  | none =>
      ({ status := 401, error := some "Invalid nonce", tokenUserId := none },
       store, users)
  | some t =>
      if now - t > fiveMinutesMs then
        ({ status := 401, error := some "Nonce expired", tokenUserId := none },
         nsDelete store req.nonce, users)
      else
        let store1 := nsDelete store req.nonce
        match users.find? (fun u => u.walletAddress == req.walletAddress) with
        | some u =>
            let u1 : WUser :=
              { u with
                username := if req.username != "" then req.username else u.username,
                profilePicture :=
                  match req.profilePictureUrl with
                  | some p => some p
                  | none => u.profilePicture }
            ({ status := 200, error := none, tokenUserId := some u.id },
             store1,
             users.map (fun v => if v.id == u.id then u1 else v))
        | none =>
            let u : WUser :=
              { id := users.length, username := req.username,
                walletAddress := req.walletAddress,
                profilePicture := req.profilePictureUrl }
            ({ status := 200, error := none, tokenUserId := some u.id },
             store1, users ++ [u])

/-! ### Wallet login, mounted controller
(`src/src/controllers/auth.controller.js`, the variant required by
`auth.routes.js`; it never reads the nonce store) -/

/-- A user document as touched by the mounted wallet login path (the user
model field is `nickname` and the wallet address is optional). -/
structure MUser where
  id : Nat
  nickname : String
  walletAddress : Option String
  profilePicture : Option String
deriving DecidableEq, Repr

/-- Request body as read by the mounted `walletAuth`: it destructures only
`walletAddress`, `nickname` and `profilePictureUrl`; any `nonce` key in the
body is never read. -/
structure WalletAuthReqMain where
  nonce : Option String
  walletAddress : Option String
  nickname : Option String
  profilePictureUrl : Option String
deriving DecidableEq, Repr

/-- `AuthController.walletAuth` of the mounted controller: find the user by
wallet address when one is supplied, otherwise create one (with a random
nickname `randNick` when none is given), and issue a token with status 200.
No nonce is ever consulted. -/
def walletAuthMain (users : List MUser) (req : WalletAuthReqMain)
    (randNick : String) : AuthResult × List MUser :=
  let found : Option MUser :=
    match req.walletAddress with
    | some w => users.find? (fun u => u.walletAddress == some w)
    | none => none
  match found with
  | some u =>
      let u1 : MUser :=
        { u with
          nickname :=
            match req.nickname with
            | some n => if n != "" then n else u.nickname
            | none => u.nickname,
          profilePicture :=
            match req.profilePictureUrl with
            | some p => if p != "" then some p else u.profilePicture
            | none => u.profilePicture }
      ({ status := 200, error := none, tokenUserId := some u.id },
       users.map (fun v => if v.id == u.id then u1 else v))
  | none =>
      let u : MUser :=
        { id := users.length,
          nickname := (req.nickname.getD randNick),
          walletAddress := req.walletAddress,
          profilePicture := req.profilePictureUrl }
      ({ status := 200, error := none, tokenUserId := some u.id },
       users ++ [u])

/-! #### Auxiliary lemmas about the nonce store -/

theorem nsGet_nsDelete_self (s : NonceStore) (n : String) :
    nsGet (nsDelete s n) n = none := by
  unfold nsGet nsDelete
  induction s with
  | nil => simp
  | cons p rest ih =>
      by_cases h : p.1 = n
      · simp only [List.filter_cons]
        have hne : (p.1 != n) = false := by simp [bne, h]
        rw [hne]
        simp only [if_neg Bool.false_ne_true]
        exact ih
      · simp only [List.filter_cons]
        have hne : (p.1 != n) = true := by simp [bne, h]
        rw [hne]
        simp only [if_true]
        rw [List.find?_cons_of_neg]
        · exact ih
        · simp [h]

/-! ### Claim C1 -/

/-- Concrete request used to witness the nonce life cycle. -/
def c1reqFresh : WalletAuthReq :=
  { nonce := "N2", username := "u", walletAddress := "0xA",
    profilePictureUrl := none }

/-- Claim C1 (amended): for the nonce-checking `AuthController.walletAuth`,
a login with a nonce absent from the store is rejected 401 with the store
unchanged; a login with a nonce issued more than 5 minutes earlier is
rejected 401 and the nonce is dropped; otherwise the login succeeds (200),
the nonce is deleted from the store, and any later login presenting the same
nonce against the resulting store is rejected 401.  (The controller mounted
by `auth.routes.js` performs no nonce validation at all; see the
counterexample.) -/
theorem c1_wallet_login_nonce_single_use
    (store : NonceStore) (users : List WUser) (req : WalletAuthReq)
    (now t : Nat) :
    (nsGet store req.nonce = none →
       (walletAuthA store users req now).1.status = 401 ∧
       (walletAuthA store users req now).2.1 = store) ∧
    (nsGet store req.nonce = some t → now - t > fiveMinutesMs →
       (walletAuthA store users req now).1.status = 401 ∧
       nsGet (walletAuthA store users req now).2.1 req.nonce = none) ∧
    (nsGet store req.nonce = some t → now - t ≤ fiveMinutesMs →
       (walletAuthA store users req now).1.status = 200 ∧
       nsGet (walletAuthA store users req now).2.1 req.nonce = none ∧
       ∀ (users2 : List WUser) (req2 : WalletAuthReq) (now2 : Nat),
         req2.nonce = req.nonce →
         (walletAuthA (walletAuthA store users req now).2.1 users2 req2
            now2).1.status = 401) := by
  refine ⟨?_, ?_, ?_⟩
  · intro h
    simp [walletAuthA, h]
  · intro h hexp
    refine ⟨?_, ?_⟩
    · simp only [walletAuthA, h, if_pos hexp]
    · simp only [walletAuthA, h, if_pos hexp]
      exact nsGet_nsDelete_self store req.nonce
  · intro h hle
    have hnot : ¬ (now - t > fiveMinutesMs) := not_lt.mpr hle
    simp only [walletAuthA, h, if_neg hnot]
    cases hf : users.find? (fun u => u.walletAddress == req.walletAddress) with
    | none =>
        refine ⟨rfl, nsGet_nsDelete_self store req.nonce, ?_⟩
        intro users2 req2 now2 hn
        have h2 : nsGet (nsDelete store req.nonce) req2.nonce = none := by
          rw [hn]; exact nsGet_nsDelete_self store req.nonce
        simp [walletAuthA, h2]
    | some u =>
        refine ⟨rfl, nsGet_nsDelete_self store req.nonce, ?_⟩
        intro users2 req2 now2 hn
        have h2 : nsGet (nsDelete store req.nonce) req2.nonce = none := by
          rw [hn]; exact nsGet_nsDelete_self store req.nonce
        simp [walletAuthA, h2]

/-- Claim C1 counterexample: the wallet-login handler of the controller that
`auth.routes.js` mounts answers 200 to a request whose nonce was never
issued (no nonce validation is performed), where the claim requires a 401
authentication failure. -/
theorem c1_mounted_wallet_login_ignores_nonce :
    (walletAuthMain []
      { nonce := some "NEVER-ISSUED", walletAddress := some "0xABC",
        nickname := some "bob", profilePictureUrl := none }
      "rnd").1.status = 200 ∧
    (walletAuthMain []
      { nonce := some "NEVER-ISSUED", walletAddress := some "0xABC",
        nickname := some "bob", profilePictureUrl := none }
      "rnd").1.status ≠ 401 := by
  refine ⟨rfl, ?_⟩
  decide

/-- Witness for C1: a concrete store `{ N2 ↦ 0 }`.  An unknown nonce is
rejected, an expired one is rejected, a fresh one is accepted exactly once
and rejected on immediate reuse. -/
theorem c1_wallet_login_nonce_single_use_witness :
    ((walletAuthA [("N2", 0)] []
        { c1reqFresh with nonce := "XX" } 1000).1.status = 401) ∧
    ((walletAuthA [("N2", 0)] [] c1reqFresh 600001).1.status = 401) ∧
    ((walletAuthA [("N2", 0)] [] c1reqFresh 1000).1.status = 200) ∧
    ((walletAuthA (walletAuthA [("N2", 0)] [] c1reqFresh 1000).2.1 []
        c1reqFresh 2000).1.status = 401) := by
  refine ⟨?_, ?_, ?_, ?_⟩
  · exact ((c1_wallet_login_nonce_single_use [("N2", 0)] []
      { c1reqFresh with nonce := "XX" } 1000 0).1 (by decide)).1
  · exact ((c1_wallet_login_nonce_single_use [("N2", 0)] []
      c1reqFresh 600001 0).2.1 (by decide) (by decide)).1
  · exact ((c1_wallet_login_nonce_single_use [("N2", 0)] []
      c1reqFresh 1000 0).2.2 (by decide) (by decide)).1
  · exact ((c1_wallet_login_nonce_single_use [("N2", 0)] []
      c1reqFresh 1000 0).2.2 (by decide) (by decide)).2.2 [] c1reqFresh 2000 rfl

/-! ### World ID verification login (`AuthController.verifyWorldId`) -/

/-- A user document as touched by the verification-proof login path. -/
structure VUser where
  id : Nat
  worldIdNullifierHash : Option String
  nickname : String
deriving DecidableEq, Repr

/-- Request body of `POST /api/auth/verify`.  Absent JSON keys are the empty
string, which is falsy in the validation check. -/
structure VerifyReq where
  merkle_root : String
  nullifier_hash : String
  proof : String
deriving DecidableEq, Repr

/-- `AuthController.verifyWorldId`: validate required fields (400 when
missing), forward the proof to the external verifier (`proofOk` is the
outcome of that single call; a failure surfaces as 401), then look the user
up by nullifier hash and create one if absent.  Fresh user ids are the
current length of the user list. -/
def verifyWorldId (users : List VUser) (req : VerifyReq) (proofOk : Bool) :
    AuthResult × List VUser :=
  if req.merkle_root == "" || req.nullifier_hash == "" || req.proof == "" then
    ({ status := 400, error := some "Missing required verification parameters",
       tokenUserId := none }, users)
  else if !proofOk then
    ({ status := 401, error := some "Verification failed",
       tokenUserId := none }, users)
  else
    match users.find?
        (fun u => u.worldIdNullifierHash == some req.nullifier_hash) with
    | some u =>
        ({ status := 200, error := none, tokenUserId := some u.id }, users)
    | none =>
        let u : VUser :=
          { id := users.length,
            worldIdNullifierHash := some req.nullifier_hash,
            nickname := "User_" ++ req.nullifier_hash.take 6 }
        ({ status := 200, error := none, tokenUserId := some u.id },
         users ++ [u])

/-! ### Claim C5 -/

/-- Claim C5: two successful verification-proof logins carrying the same
nullifier hash create exactly one user row in total: the first call appends
one user, the second call leaves the store unchanged, and both issued tokens
carry the same user id. -/
theorem c5_same_nullifier_single_user
    (users : List VUser) (req1 req2 : VerifyReq) (h : String)
    (h1 : req1.nullifier_hash = h) (h2 : req2.nullifier_hash = h)
    (hne : h ≠ "")
    (hm1 : req1.merkle_root ≠ "") (hp1 : req1.proof ≠ "")
    (hm2 : req2.merkle_root ≠ "") (hp2 : req2.proof ≠ "")
    (habsent : users.find? (fun u => u.worldIdNullifierHash == some h) = none) :
    (verifyWorldId users req1 true).2.length = users.length + 1 ∧
    (verifyWorldId (verifyWorldId users req1 true).2 req2 true).2 =
      (verifyWorldId users req1 true).2 ∧
    (verifyWorldId users req1 true).1.tokenUserId = some users.length ∧
    (verifyWorldId (verifyWorldId users req1 true).2 req2
        true).1.tokenUserId = some users.length := by
  have hv1 : (req1.merkle_root == "" || req1.nullifier_hash == "" ||
      req1.proof == "") = false := by
    simp [hm1, hp1, h1, hne]
  have hv2 : (req2.merkle_root == "" || req2.nullifier_hash == "" ||
      req2.proof == "") = false := by
    simp [hm2, hp2, h2, hne]
  have habsent1 :
      users.find? (fun u => u.worldIdNullifierHash == some req1.nullifier_hash)
        = none := by rw [h1]; exact habsent
  have hstep1 : (verifyWorldId users req1 true).2 =
      users ++ [VUser.mk users.length (some req1.nullifier_hash)
        ("User_" ++ req1.nullifier_hash.take 6)] := by
    simp [verifyWorldId, hv1, habsent1]
  have htok1 : (verifyWorldId users req1 true).1.tokenUserId =
      some users.length := by
    simp [verifyWorldId, hv1, habsent1]
  have hfound : ((users ++ [VUser.mk users.length (some req1.nullifier_hash)
        ("User_" ++ req1.nullifier_hash.take 6)]).find?
      (fun u => u.worldIdNullifierHash == some req2.nullifier_hash)) =
      some (VUser.mk users.length (some req1.nullifier_hash)
        ("User_" ++ req1.nullifier_hash.take 6)) := by
    rw [List.find?_append]
    have : users.find?
        (fun u => u.worldIdNullifierHash == some req2.nullifier_hash) = none := by
      rw [h2]; exact habsent
    rw [this]
    simp [List.find?, h1, h2]
  refine ⟨?_, ?_, htok1, ?_⟩
  · rw [hstep1]; simp
  · rw [hstep1]
    simp [verifyWorldId, hv2, hfound]
  · rw [hstep1]
    simp [verifyWorldId, hv2, hfound]

/-- First concrete verification request used by the C5 witness. -/
def c5req1 : VerifyReq := VerifyReq.mk "m1" "H" "p1"

/-- Second concrete verification request used by the C5 witness (same
nullifier hash, different proof bundle). -/
def c5req2 : VerifyReq := VerifyReq.mk "m2" "H" "p2"

/-- Witness for C5: a concrete pair of requests with nullifier hash `H`
against an empty user store. -/
theorem c5_same_nullifier_single_user_witness :
    (verifyWorldId [] c5req1 true).2.length = 1 ∧
    (verifyWorldId (verifyWorldId [] c5req1 true).2 c5req2 true).2 =
      (verifyWorldId [] c5req1 true).2 ∧
    (verifyWorldId [] c5req1 true).1.tokenUserId = some 0 ∧
    (verifyWorldId (verifyWorldId [] c5req1 true).2 c5req2
        true).1.tokenUserId = some 0 :=
  c5_same_nullifier_single_user [] c5req1 c5req2
    "H" rfl rfl (by decide) (by decide) (by decide) (by decide) (by decide)
    rfl


/-! ### Token middleware (`AuthMiddleware.verifyToken`) -/

/-- Helper for `jsSplit`: splits a character list at every occurrence of
`sep`, JS `String.split` style (adjacent separators yield empty pieces). -/
def splitCharsAux (sep : Char) : List Char → List Char → List (List Char)
  | [], acc => [acc.reverse]
  | c :: cs, acc =>
      if c == sep then acc.reverse :: splitCharsAux sep cs []
      else splitCharsAux sep cs (c :: acc)

/-- JS `s.split(sep)` for a one-character separator. -/
def jsSplit (s : String) (sep : Char) : List String :=
  (splitCharsAux sep s.toList []).map (fun l => String.mk l)

/-- The part of an HTTP request the middleware reads: the value of the
`Authorization` header, when present. -/
structure MWRequest where
  authorization : Option String
deriving DecidableEq, Repr

/-- `AuthMiddleware.verifyToken`: reject 401 when the header is missing (or
the empty string, which is falsy), when it does not split into exactly
`Bearer <token>`, or when `jwtUtils.verifyToken` throws.  `validate` is the
JWT verification (`some claims` on success, `none` when signature or expiry
checks fail; the claims are the `userId`).  On success the decoded claims
are handed to the next handler. -/
def verifyTokenMW (validate : String → Option Nat) (req : MWRequest) :
    Except Nat Nat :=
  match req.authorization with
  | none => .error 401
  | some h =>
      if h == "" then .error 401
      else
        if (jsSplit h ' ').length != 2 || (jsSplit h ' ').headD "" != "Bearer"
        then .error 401
        else
          match validate ((jsSplit h ' ').getD 1 "") with
          | none => .error 401
          | some claims => .ok claims

/-- A protected route: the middleware runs first; only when it succeeds is
the controller invoked on the decoded claims and the store.  A middleware
rejection returns its status with the store untouched. -/
def mountProtected {σ : Type} (validate : String → Option Nat)
    (controller : Nat → σ → Nat × σ) (req : MWRequest) (st : σ) :
    Nat × σ :=
  match verifyTokenMW validate req with
  | .error s => (s, st)
  | .ok claims => controller claims st

/-- Unfolding of `verifyTokenMW` on a missing header. -/
theorem verifyTokenMW_none (validate : String → Option Nat) :
    verifyTokenMW validate { authorization := none } = .error 401 := rfl

/-- Unfolding of `verifyTokenMW` on a present header. -/
theorem verifyTokenMW_some (validate : String → Option Nat) (s : String) :
    verifyTokenMW validate { authorization := some s } =
      (if s == "" then .error 401
       else
         if (jsSplit s ' ').length != 2 || (jsSplit s ' ').headD "" != "Bearer"
         then .error 401
         else
           match validate ((jsSplit s ' ').getD 1 "") with
           | none => .error 401
           | some claims => .ok claims) := rfl

/-! ### Claim C6 -/

/-- Claim C6: a request to any route mounted behind the token middleware
whose `Authorization` header is missing, not of the form `Bearer token`, or
whose token fails verification, is answered 401 with the store unchanged,
and the outcome is the same whatever the controller is: the controller is
never invoked and no store access happens. -/
theorem c6_middleware_rejects_unauthenticated
    {σ : Type} (validate : String → Option Nat) (req : MWRequest)
    (st : σ) (c other : Nat → σ → Nat × σ)
    (hbad : req.authorization = none ∨
      ∃ s, req.authorization = some s ∧
        (s = "" ∨
         ((jsSplit s ' ').length != 2 ||
            (jsSplit s ' ').headD "" != "Bearer") = true ∨
         validate ((jsSplit s ' ').getD 1 "") = none)) :
    mountProtected validate c req st = (401, st) ∧
    mountProtected validate c req st = mountProtected validate other req st := by
  have herr : verifyTokenMW validate req = .error 401 := by
    obtain ⟨a⟩ := req
    rcases hbad with hnone | ⟨s, hs, hcase⟩
    · have ha : a = none := hnone
      subst ha
      exact verifyTokenMW_none validate
    · have ha : a = some s := hs
      subst ha
      rw [verifyTokenMW_some]
      rcases hcase with hemp | hform | hval
      · rw [if_pos (by simp [hemp] : ((s == "") = true))]
      · by_cases hemp : s = ""
        · rw [if_pos (by simp [hemp] : ((s == "") = true))]
        · rw [if_neg (by simp [hemp] : ¬ ((s == "") = true)),
            if_pos hform]
      · by_cases hemp : s = ""
        · rw [if_pos (by simp [hemp] : ((s == "") = true))]
        · rw [if_neg (by simp [hemp] : ¬ ((s == "") = true))]
          by_cases hform : ((jsSplit s ' ').length != 2 ||
              (jsSplit s ' ').headD "" != "Bearer") = true
          · rw [if_pos hform]
          · rw [if_neg hform, hval]
  constructor
  · simp [mountProtected, herr]
  · simp [mountProtected, herr]

/-- Witness for C6: a concrete validator that accepts only the token `good`,
and three concrete bad requests (missing header, malformed header, bad
token) against two different controllers over a `Nat` store. -/
theorem c6_middleware_rejects_unauthenticated_witness :
    (mountProtected (fun t => if t == "good" then some 7 else none)
        (fun _ st => (200, st + 1)) { authorization := none } (5 : Nat) =
      (401, 5)) ∧
    (mountProtected (fun t => if t == "good" then some 7 else none)
        (fun _ st => (200, st + 1)) { authorization := some "Token abc xy" }
        (5 : Nat) = (401, 5)) ∧
    (mountProtected (fun t => if t == "good" then some 7 else none)
        (fun _ st => (200, st + 1)) { authorization := some "Bearer bad" }
        (5 : Nat) = (401, 5)) ∧
    (mountProtected (fun t => if t == "good" then some 7 else none)
        (fun _ st => (200, st + 1)) { authorization := some "Bearer bad" }
        (5 : Nat) =
      mountProtected (fun t => if t == "good" then some 7 else none)
        (fun _ st => (0, st * 2)) { authorization := some "Bearer bad" }
        (5 : Nat)) := by
  refine ⟨?_, ?_, ?_, ?_⟩
  · exact (c6_middleware_rejects_unauthenticated
      (fun t => if t == "good" then some 7 else none)
      { authorization := none } (5 : Nat) (fun _ st => (200, st + 1))
      (fun _ st => (0, st * 2)) (Or.inl rfl)).1
  · exact (c6_middleware_rejects_unauthenticated
      (fun t => if t == "good" then some 7 else none)
      { authorization := some "Token abc xy" } (5 : Nat)
      (fun _ st => (200, st + 1)) (fun _ st => (0, st * 2))
      (Or.inr ⟨"Token abc xy", rfl, Or.inr (Or.inl (by decide))⟩)).1
  · exact (c6_middleware_rejects_unauthenticated
      (fun t => if t == "good" then some 7 else none)
      { authorization := some "Bearer bad" } (5 : Nat)
      (fun _ st => (200, st + 1)) (fun _ st => (0, st * 2))
      (Or.inr ⟨"Bearer bad", rfl,
        Or.inr (Or.inr (by decide))⟩)).1
  · exact (c6_middleware_rejects_unauthenticated
      (fun t => if t == "good" then some 7 else none)
      { authorization := some "Bearer bad" } (5 : Nat)
      (fun _ st => (200, st + 1)) (fun _ st => (0, st * 2))
      (Or.inr ⟨"Bearer bad", rfl,
        Or.inr (Or.inr (by decide))⟩)).2

/-! ### Transactions (`transaction.model.js`, `payment.service.js`,
`payment.controller.js`) -/

/-- `status` enum of the Transaction schema. -/
inductive TxnStatus where
  | PENDING
  | COMPLETED
  | FAILED
deriving DecidableEq, Repr

/-- `type` enum of the Transaction schema. -/
inductive TxnType where
  | CHAT
  | JOB_LINK
  | DEPOSIT
deriving DecidableEq, Repr

/-- A Transaction document. -/
structure Txn where
  id : Nat
  userId : Nat
  type : TxnType
  amount : Nat
  status : TxnStatus
  reference : String
  worldIdTransactionId : Option String
  metadataJobId : Option Nat
deriving DecidableEq, Repr

/-- `PaymentService.recordTransaction`: saves a new transaction with
`status: PENDING` and a freshly minted reference (`ref`, the generated
UUID).  Fresh ids are the current length of the store. -/
def recordTransaction (txns : List Txn) (userId : Nat) (type : TxnType)
    (amount : Nat) (ref : String) (metadataJobId : Option Nat) :
    Txn × List Txn :=
  let t : Txn :=
    { id := txns.length, userId := userId, type := type, amount := amount,
      status := TxnStatus.PENDING, reference := ref,
      worldIdTransactionId := none, metadataJobId := metadataJobId }
  (t, txns ++ [t])

/-- `findOneAndUpdate({ reference }, { status, worldIdTransactionId })`:
update the first document whose reference matches; `none` when no document
matches. -/
def updateFirstTxn (ref : String) (status : TxnStatus) (wid : Option String) :
    List Txn → Option (List Txn)
  | [] => none
  | t :: rest =>
      if t.reference == ref then
        some ({ t with status := status, worldIdTransactionId := wid } :: rest)
      else
        (updateFirstTxn ref status wid rest).map (fun l => t :: l)

/-- `PaymentService.updateTransactionStatus`: the `findOneAndUpdate` above,
throwing `Transaction not found` when no document matches. -/
def updateTransactionStatus (txns : List Txn) (ref : String)
    (status : TxnStatus) (wid : Option String) : Except String (List Txn) :=
  match updateFirstTxn ref status wid txns with
  | none => .error "Transaction not found"
  | some l => .ok l

/-- `PaymentController.verifyPayment`: 400 when `transaction_id` is missing;
the provider is queried once (`providerStatus` is the `status` field of its
response, `.error` when the outbound call fails, surfaced as 500); a
non-success provider status is 400; otherwise the stored transaction is
flipped to COMPLETED.  A failing store update surfaces as 500 with the
store unchanged. -/
def verifyPaymentC (txns : List Txn) (transaction_id ref : String)
    (providerStatus : Except String String) : Nat × List Txn :=
  if transaction_id == "" then (400, txns)
  else
    match providerStatus with
    | .error _ => (500, txns)
    | .ok s =>
        if s != "success" then (400, txns)
        else
          match updateTransactionStatus txns ref TxnStatus.COMPLETED
              (some transaction_id) with
          | .error _ => (500, txns)
          | .ok txns1 => (200, txns1)

/-- `PaymentController.paymentCallback`: 400 when `transaction_id` or
`reference` is missing; otherwise the stored transaction is set to
COMPLETED when the pushed status is `success` and FAILED otherwise. -/
def paymentCallback (txns : List Txn) (transaction_id ref status : String) :
    Nat × List Txn :=
  if transaction_id == "" || ref == "" then (400, txns)
  else
    match updateTransactionStatus txns ref
        (if status == "success" then TxnStatus.COMPLETED else TxnStatus.FAILED)
        (some transaction_id) with
    | .error _ => (500, txns)
    | .ok txns1 => (200, txns1)

/-- `updateTransactionStatus` succeeds exactly when the underlying
`findOneAndUpdate` matched a document. -/
theorem updateTransactionStatus_ok_iff (txns : List Txn) (ref : String)
    (status : TxnStatus) (wid : Option String) (l : List Txn) :
    updateTransactionStatus txns ref status wid = .ok l ↔
      updateFirstTxn ref status wid txns = some l := by
  unfold updateTransactionStatus
  cases h : updateFirstTxn ref status wid txns with
  | none => simp [h]
  | some l2 => simp [h]

/-- Elements of an updated transaction list are either untouched or carry
exactly the status that was written. -/
theorem updateFirstTxn_mem (ref : String) (status : TxnStatus)
    (wid : Option String) :
    ∀ (txns txns1 : List Txn),
      updateFirstTxn ref status wid txns = some txns1 →
      ∀ t1 ∈ txns1, t1 ∈ txns ∨ t1.status = status := by
  intro txns
  induction txns with
  | nil =>
      intro txns1 h
      exact Option.noConfusion h
  | cons t rest ih =>
      intro txns1 h t1 hmem
      by_cases hr : (t.reference == ref) = true
      · simp only [updateFirstTxn] at h
        rw [if_pos hr] at h
        cases h
        rcases List.mem_cons.mp hmem with h1 | h1
        · right; rw [h1]
        · left; exact List.mem_cons_of_mem t h1
      · simp only [updateFirstTxn] at h
        rw [if_neg hr] at h
        cases hrec : updateFirstTxn ref status wid rest with
        | none => rw [hrec] at h; simp at h
        | some l =>
            rw [hrec] at h
            have hh : t :: l = txns1 := by simpa using h
            subst hh
            rcases List.mem_cons.mp hmem with h1 | h1
            · left; rw [h1]; exact List.mem_cons_self t rest
            · rcases ih l hrec t1 h1 with h2 | h2
              · left; exact List.mem_cons_of_mem t h2
              · right; exact h2

/-- The payment-verification endpoint either leaves the store untouched or
writes COMPLETED into the matched transaction. -/
theorem verifyPaymentC_state (txns : List Txn) (transaction_id ref : String)
    (providerStatus : Except String String) :
    (verifyPaymentC txns transaction_id ref providerStatus).2 = txns ∨
      ∃ l, updateFirstTxn ref TxnStatus.COMPLETED (some transaction_id) txns
          = some l ∧
        (verifyPaymentC txns transaction_id ref providerStatus).2 = l := by
  unfold verifyPaymentC
  split
  · exact Or.inl rfl
  · split
    · exact Or.inl rfl
    · split
      · exact Or.inl rfl
      · split
        · exact Or.inl rfl
        · next l heq =>
            exact Or.inr ⟨l, (updateTransactionStatus_ok_iff txns ref
              TxnStatus.COMPLETED (some transaction_id) l).mp heq, rfl⟩

/-- The payment callback either leaves the store untouched or writes
COMPLETED (provider pushed success) or FAILED (anything else) into the
matched transaction. -/
theorem paymentCallback_state (txns : List Txn)
    (transaction_id ref cbStatus : String) :
    (paymentCallback txns transaction_id ref cbStatus).2 = txns ∨
      ∃ l, updateFirstTxn ref
          (if cbStatus == "success" then TxnStatus.COMPLETED
           else TxnStatus.FAILED) (some transaction_id) txns = some l ∧
        (paymentCallback txns transaction_id ref cbStatus).2 = l := by
  unfold paymentCallback
  split
  · exact Or.inl rfl
  · split
    · exact Or.inl rfl
    · next l heq =>
        exact Or.inr ⟨l, (updateTransactionStatus_ok_iff txns ref _
          (some transaction_id) l).mp heq, rfl⟩

/-! ### Claim C3 -/

/-- Claim C3 (amended): every transaction is created with status PENDING,
and the verification call and the payment callback write only COMPLETED or
FAILED statuses (every transaction in the updated store is either a
transaction already present or now carries COMPLETED/FAILED).  However,
there is no terminal-state guard: a COMPLETED or FAILED transaction can
have its status overwritten by a later callback or verification call (see
the counterexample). -/
theorem c3_transaction_status_lifecycle
    (txns : List Txn) (userId amount : Nat) (type : TxnType)
    (ref transaction_id cbStatus : String)
    (providerStatus : Except String String) :
    ((recordTransaction txns userId type amount ref
        (none : Option Nat)).1.status = TxnStatus.PENDING) ∧
    (∀ t1 ∈ (verifyPaymentC txns transaction_id ref providerStatus).2,
       t1 ∈ txns ∨ t1.status = TxnStatus.COMPLETED) ∧
    (∀ t1 ∈ (paymentCallback txns transaction_id ref cbStatus).2,
       t1 ∈ txns ∨ t1.status = TxnStatus.COMPLETED ∨
         t1.status = TxnStatus.FAILED) := by
  refine ⟨rfl, ?_, ?_⟩
  · intro t1 hmem
    rcases verifyPaymentC_state txns transaction_id ref providerStatus with
      h | ⟨l, hup, h⟩
    · rw [h] at hmem; exact Or.inl hmem
    · rw [h] at hmem
      exact updateFirstTxn_mem _ _ _ txns l hup t1 hmem
  · intro t1 hmem
    rcases paymentCallback_state txns transaction_id ref cbStatus with
      h | ⟨l, hup, h⟩
    · rw [h] at hmem; exact Or.inl hmem
    · rw [h] at hmem
      rcases updateFirstTxn_mem _ _ _ txns l hup t1 hmem with h2 | h2
      · exact Or.inl h2
      · by_cases hcb : (cbStatus == "success") = true
        · rw [if_pos hcb] at h2; exact Or.inr (Or.inl h2)
        · rw [if_neg hcb] at h2; exact Or.inr (Or.inr h2)

/-- Claim C3 counterexample: a transaction flipped to COMPLETED by a
successful callback is flipped again to FAILED by a later callback on the
same reference, so a COMPLETED transaction does not keep its status. -/
theorem c3_completed_transaction_flipped_again :
    (((recordTransaction [] 0 TxnType.JOB_LINK 1 "r1" none).2).map
        Txn.status = [TxnStatus.PENDING]) ∧
    ((paymentCallback (recordTransaction [] 0 TxnType.JOB_LINK 1 "r1"
        none).2 "wid1" "r1" "success").2.map Txn.status =
      [TxnStatus.COMPLETED]) ∧
    ((paymentCallback (paymentCallback (recordTransaction [] 0
        TxnType.JOB_LINK 1 "r1" none).2 "wid1" "r1" "success").2
        "wid2" "r1" "failed").2.map Txn.status = [TxnStatus.FAILED]) := by
  refine ⟨rfl, rfl, rfl⟩

/-- Witness for C3: the lifecycle theorem applied to a concrete store with
one pending transaction and a concrete successful verification. -/
theorem c3_transaction_status_lifecycle_witness :
    ((recordTransaction [] 7 TxnType.CHAT 1 "rw"
        (none : Option Nat)).1.status = TxnStatus.PENDING) ∧
    (∀ t1 ∈ (verifyPaymentC (recordTransaction [] 7 TxnType.CHAT 1 "rw"
        none).2 "wid" "rw" (Except.ok "success")).2,
       t1 ∈ (recordTransaction [] 7 TxnType.CHAT 1 "rw" none).2 ∨
         t1.status = TxnStatus.COMPLETED) ∧
    (∀ t1 ∈ (paymentCallback (recordTransaction [] 7 TxnType.CHAT 1 "rw"
        none).2 "wid" "rw" "failed").2,
       t1 ∈ (recordTransaction [] 7 TxnType.CHAT 1 "rw" none).2 ∨
         t1.status = TxnStatus.COMPLETED ∨ t1.status = TxnStatus.FAILED) :=
  c3_transaction_status_lifecycle (recordTransaction [] 7 TxnType.CHAT 1
    "rw" none).2 7 1 TxnType.CHAT "rw" "wid" "failed" (Except.ok "success")

/-! ### Jobs and user-job relations (`job.model` per the schema fields the
code reads, `user-job.model.js`, `job.service.js`, `job.controller.js`) -/

/-- A Job document, with the fields the services read. -/
structure Job where
  id : Nat
  title : String
  company : String
  description : String
  requirements : List String
  salaryMin : Nat
  salaryMax : Nat
  salaryCurrency : String
  location : String
  remote : Bool
  type : String
  category : String
  postedAt : Nat
  active : Bool
deriving DecidableEq, Repr

/-- `JobModel.findById`. -/
def findById (jobs : List Job) (jobId : Nat) : Option Job :=
  jobs.find? (fun j => j.id == jobId)

/-- `status` enum of the UserJob schema. -/
inductive UserJobStatus where
  | INTERESTED
  | DISCARDED
  | APPLIED
deriving DecidableEq, Repr

/-- A UserJob document: the relation between one user and one job. -/
structure UserJob where
  userId : Nat
  jobId : Nat
  status : UserJobStatus
  generatedLink : Option String
  transactionId : Option Nat
deriving DecidableEq, Repr

/-- The membership test of the compound `(userId, jobId)` index. -/
def matchPair (r : UserJob) (userId jobId : Nat) : Bool :=
  r.userId == userId && r.jobId == jobId

/-- `UserJobModel.findOne({ userId, jobId })`. -/
def findUserJob (rows : List UserJob) (userId jobId : Nat) : Option UserJob :=
  rows.find? (fun r => matchPair r userId jobId)

/-- `userJob.save()` on an existing document: replace the first row matching
the pair. -/
def replaceFirstUserJob (userId jobId : Nat) (r1 : UserJob) :
    List UserJob → List UserJob
  | [] => []
  | r :: rest =>
      if matchPair r userId jobId then r1 :: rest
      else r :: replaceFirstUserJob userId jobId r1 rest

/-- Number of UserJob rows stored for one `(user, job)` pair. -/
def countPair (rows : List UserJob) (userId jobId : Nat) : Nat :=
  (rows.filter (fun r => matchPair r userId jobId)).length

/-- `JobService.updateJobStatus`: reject a status other than INTERESTED or
DISCARDED, reject a missing job, then update the found row's status or
insert a fresh row for the pair. -/
def updateJobStatus (jobs : List Job) (rows : List UserJob)
    (userId jobId : Nat) (status : String) :
    Except String (UserJob × List UserJob) :=
  if !(status == "INTERESTED" || status == "DISCARDED") then
    .error "Invalid status"
  else
    match findById jobs jobId with
    | none => .error "Job not found"
    | some _ =>
        let st := if status == "INTERESTED" then UserJobStatus.INTERESTED
          else UserJobStatus.DISCARDED
        match findUserJob rows userId jobId with
        | some r =>
            let r1 : UserJob := { r with status := st }
            .ok (r1, replaceFirstUserJob userId jobId r1 rows)
        | none =>
            let r1 : UserJob :=
              { userId := userId, jobId := jobId, status := st,
                generatedLink := none, transactionId := none }
            .ok (r1, rows ++ [r1])

/-- The User document fields the link-generation path touches. -/
structure SUser where
  id : Nat
  linksGenerated : Nat
deriving DecidableEq, Repr

/-- `countDocuments({ userId, generatedLink: { $exists: true, $ne: null } })`:
rows of this user that carry a generated link. -/
def linkCount (rows : List UserJob) (userId : Nat) : Nat :=
  (rows.filter (fun r => r.userId == userId && r.generatedLink.isSome)).length

/-- `findByIdAndUpdate(userId, { statistics.linksGenerated : n })`. -/
def setLinks (users : List SUser) (userId n : Nat) : List SUser :=
  users.map (fun u => if u.id == userId then { u with linksGenerated := n }
    else u)

/-- `findByIdAndUpdate(userId, { $inc: { statistics.linksGenerated: 1 } })`. -/
def incLinks (users : List SUser) (userId : Nat) : List SUser :=
  users.map (fun u =>
    if u.id == userId then { u with linksGenerated := u.linksGenerated + 1 }
    else u)

/-- The stored `linksGenerated` statistic of a user. -/
def getLinksGenerated (users : List SUser) (userId : Nat) : Option Nat :=
  (users.find? (fun u => u.id == userId)).map SUser.linksGenerated

/-- `JobService.updateUserStatistics`: recounts the user's link-carrying
rows and stores that count as the `linksGenerated` statistic. -/
def updateUserStatistics (rows : List UserJob) (users : List SUser)
    (userId : Nat) : List SUser :=
  setLinks users userId (linkCount rows userId)

/-- `JobService.generateJobLink`: reject a missing job; take the existing
row for the pair or a fresh INTERESTED one; stamp a freshly generated link,
status APPLIED and the transaction id; save; then recount the statistics.
`uniqueId` is the random path segment and `baseUrl` the configured base. -/
def generateJobLink (jobs : List Job) (rows : List UserJob)
    (users : List SUser) (userId jobId txnId : Nat)
    (uniqueId baseUrl : String) :
    Except String (UserJob × List UserJob × List SUser) :=
  match findById jobs jobId with
  | none => .error "Job not found"
  | some _ =>
      let link := baseUrl ++ "/apply/" ++ toString jobId ++ "/" ++ uniqueId
      match findUserJob rows userId jobId with
      | some r =>
          let r1 : UserJob :=
            { r with
              generatedLink := some link,
              status := UserJobStatus.APPLIED,
              transactionId := some txnId }
          let rows1 := replaceFirstUserJob userId jobId r1 rows
          .ok (r1, rows1, updateUserStatistics rows1 users userId)
      | none =>
          let r1 : UserJob :=
            { userId := userId, jobId := jobId,
              status := UserJobStatus.APPLIED,
              generatedLink := some link, transactionId := some txnId }
          let rows1 := rows ++ [r1]
          .ok (r1, rows1, updateUserStatistics rows1 users userId)

/-- Outcome of the complete-link endpoint. -/
structure CompleteLinkRes where
  status : Nat
  link : Option String
deriving DecidableEq, Repr

/-- `JobController.completeJobLink`: run the service, then additionally
`$inc` the user's `linksGenerated` statistic by 1; errors surface as 400
with the stores untouched. -/
def completeJobLink (jobs : List Job) (rows : List UserJob)
    (users : List SUser) (userId jobId txnId : Nat)
    (uniqueId baseUrl : String) :
    CompleteLinkRes × List UserJob × List SUser :=
  match generateJobLink jobs rows users userId jobId txnId uniqueId baseUrl
      with
  | .error _ => ({ status := 400, link := none }, rows, users)
  | .ok (r1, rows1, users1) =>
      ({ status := 200, link := r1.generatedLink }, rows1,
       incLinks users1 userId)

/-! #### Lemmas on the `(userId, jobId)` pair index -/

/-- A found row matches the pair it was looked up by. -/
theorem matchPair_of_findUserJob {rows : List UserJob} {userId jobId : Nat}
    {r : UserJob} (h : findUserJob rows userId jobId = some r) :
    matchPair r userId jobId = true := by
  unfold findUserJob at h
  have h2 := List.find?_some h
  exact h2

/-- Appending one row adds one to the count of its own pair and nothing to
other pairs. -/
theorem countPair_append_single (rows : List UserJob) (r : UserJob)
    (userId jobId : Nat) :
    countPair (rows ++ [r]) userId jobId =
      countPair rows userId jobId +
        (if matchPair r userId jobId then 1 else 0) := by
  unfold countPair
  rw [List.filter_append]
  by_cases h : matchPair r userId jobId = true
  · simp [h]
  · simp [h]

/-- A pair with no stored row has count zero. -/
theorem countPair_eq_zero_of_none {rows : List UserJob} {userId jobId : Nat}
    (h : findUserJob rows userId jobId = none) :
    countPair rows userId jobId = 0 := by
  unfold countPair
  rw [List.length_eq_zero, List.filter_eq_nil_iff]
  intro r hr
  have := List.find?_eq_none.mp h r hr
  simpa using this

/-- A pair with a stored row has positive count. -/
theorem countPair_pos_of_some {rows : List UserJob} {userId jobId : Nat}
    {r : UserJob} (h : findUserJob rows userId jobId = some r) :
    1 ≤ countPair rows userId jobId := by
  unfold countPair
  have hmem : r ∈ rows := by
    unfold findUserJob at h
    exact List.mem_of_find?_eq_some h
  have hmatch : matchPair r userId jobId = true := matchPair_of_findUserJob h
  have : r ∈ rows.filter (fun x => matchPair x userId jobId) :=
    List.mem_filter.mpr ⟨hmem, hmatch⟩
  exact List.length_pos.mpr (List.ne_nil_of_mem this)

/-- Looking a pair up after inserting its first row finds that row. -/
theorem findUserJob_append_of_none {rows : List UserJob} {userId jobId : Nat}
    {r : UserJob} (h : findUserJob rows userId jobId = none)
    (hm : matchPair r userId jobId = true) :
    findUserJob (rows ++ [r]) userId jobId = some r := by
  unfold findUserJob at h ⊢
  rw [List.find?_append, h]
  simp [List.find?, hm]

/-- Two rows matching the same pair match exactly the same pairs. -/
theorem matchPair_congr {r r1 : UserJob} {userId jobId : Nat}
    (hr : matchPair r userId jobId = true)
    (hr1 : matchPair r1 userId jobId = true) (u j : Nat) :
    matchPair r u j = matchPair r1 u j := by
  unfold matchPair at hr hr1 ⊢
  simp only [Bool.and_eq_true, beq_iff_eq] at hr hr1
  rw [hr.1, hr.2, hr1.1, hr1.2]

/-- Replacing the stored row of a pair by another row of the same pair
leaves every pair count unchanged. -/
theorem countPair_replaceFirst (userId jobId : Nat) (r1 : UserJob)
    (hm : matchPair r1 userId jobId = true) :
    ∀ (rows : List UserJob) (u j : Nat),
      countPair (replaceFirstUserJob userId jobId r1 rows) u j =
        countPair rows u j := by
  intro rows
  induction rows with
  | nil => intro u j; rfl
  | cons r rest ih =>
      intro u j
      by_cases hr : matchPair r userId jobId = true
      · unfold replaceFirstUserJob
        rw [if_pos hr]
        unfold countPair
        rw [List.filter_cons, List.filter_cons,
          matchPair_congr hr hm u j]
        by_cases hc : matchPair r1 u j = true
        · simp [hc]
        · simp [hc]
      · unfold replaceFirstUserJob
        rw [if_neg hr]
        unfold countPair
        rw [List.filter_cons, List.filter_cons]
        by_cases hc : matchPair r u j = true
        · simp only [hc, if_true]
          have := ih u j
          unfold countPair at this
          simp [this]
        · simp only [hc]
          have := ih u j
          unfold countPair at this
          simp [this]

/-- After replacing the stored row of a pair, looking the pair up finds the
replacement. -/
theorem findUserJob_replaceFirst {rows : List UserJob} {userId jobId : Nat}
    {r : UserJob} (r1 : UserJob)
    (h : findUserJob rows userId jobId = some r)
    (hm : matchPair r1 userId jobId = true) :
    findUserJob (replaceFirstUserJob userId jobId r1 rows) userId jobId =
      some r1 := by
  induction rows with
  | nil => exact Option.noConfusion h
  | cons r0 rest ih =>
      by_cases hr0 : matchPair r0 userId jobId = true
      · unfold replaceFirstUserJob
        rw [if_pos hr0]
        unfold findUserJob
        simp [List.find?, hm]
      · unfold replaceFirstUserJob
        rw [if_neg hr0]
        unfold findUserJob at h ⊢
        rw [List.find?_cons_of_neg _ (by simp [hr0])] at h
        rw [List.find?_cons_of_neg _ (by simp [hr0])]
        exact ih h

/-! ### Claim C4 -/

/-- Claim C4: starting from a store with at most one UserJob row per
`(user, job)` pair, marking an existing job DISCARDED and then INTERESTED
succeeds, keeps the at-most-one invariant for every pair, leaves exactly
one row for the pair, and that row's final status is INTERESTED. -/
theorem c4_discard_then_interested_unique
    (jobs : List Job) (rows : List UserJob) (userId jobId : Nat) (job : Job)
    (hjob : findById jobs jobId = some job)
    (hinv : ∀ u j, countPair rows u j ≤ 1) :
    ∃ r1 rows1 r2 rows2,
      updateJobStatus jobs rows userId jobId "DISCARDED" = .ok (r1, rows1) ∧
      updateJobStatus jobs rows1 userId jobId "INTERESTED" = .ok (r2, rows2) ∧
      r2.status = UserJobStatus.INTERESTED ∧
      countPair rows2 userId jobId = 1 ∧
      (∀ u j, countPair rows2 u j ≤ 1) ∧
      (findUserJob rows2 userId jobId).map UserJob.status =
        some UserJobStatus.INTERESTED := by
  cases hfind : findUserJob rows userId jobId with
  | none =>
      have hm1 : matchPair (UserJob.mk userId jobId UserJobStatus.DISCARDED
          none none) userId jobId = true := by simp [matchPair]
      have hfind1 : findUserJob (rows ++ [UserJob.mk userId jobId
          UserJobStatus.DISCARDED none none]) userId jobId =
          some (UserJob.mk userId jobId UserJobStatus.DISCARDED none none) :=
        findUserJob_append_of_none hfind hm1
      have hm2 : matchPair (UserJob.mk userId jobId UserJobStatus.INTERESTED
          none none) userId jobId = true := by simp [matchPair]
      refine ⟨UserJob.mk userId jobId UserJobStatus.DISCARDED none none,
        rows ++ [UserJob.mk userId jobId UserJobStatus.DISCARDED none none],
        UserJob.mk userId jobId UserJobStatus.INTERESTED none none,
        replaceFirstUserJob userId jobId
          (UserJob.mk userId jobId UserJobStatus.INTERESTED none none)
          (rows ++ [UserJob.mk userId jobId UserJobStatus.DISCARDED none
            none]),
        ?_, ?_, rfl, ?_, ?_, ?_⟩
      · simp [updateJobStatus, hjob, hfind]
      · simp [updateJobStatus, hjob, hfind1]
      · rw [countPair_replaceFirst userId jobId _ hm2,
          countPair_append_single, countPair_eq_zero_of_none hfind,
          if_pos hm1]
      · intro u j
        rw [countPair_replaceFirst userId jobId _ hm2,
          countPair_append_single]
        by_cases hc : matchPair (UserJob.mk userId jobId
            UserJobStatus.DISCARDED none none) u j = true
        · have huj : userId = u ∧ jobId = j := by
            simpa [matchPair] using hc
          rcases huj with ⟨hu, hj⟩
          subst hu; subst hj
          rw [countPair_eq_zero_of_none hfind, if_pos hc]
        · rw [if_neg hc]
          simpa using hinv u j
      · rw [findUserJob_replaceFirst _ hfind1 hm2]
        rfl
  | some r =>
      have hmr : matchPair r userId jobId = true :=
        matchPair_of_findUserJob hfind
      have hm1 : matchPair { r with status := UserJobStatus.DISCARDED }
          userId jobId = true := hmr
      have hfind1 : findUserJob (replaceFirstUserJob userId jobId
          { r with status := UserJobStatus.DISCARDED } rows) userId jobId =
          some { r with status := UserJobStatus.DISCARDED } :=
        findUserJob_replaceFirst _ hfind hm1
      have hm2 : matchPair { r with status := UserJobStatus.INTERESTED }
          userId jobId = true := hmr
      refine ⟨{ r with status := UserJobStatus.DISCARDED },
        replaceFirstUserJob userId jobId
          { r with status := UserJobStatus.DISCARDED } rows,
        { r with status := UserJobStatus.INTERESTED },
        replaceFirstUserJob userId jobId
          { r with status := UserJobStatus.INTERESTED }
          (replaceFirstUserJob userId jobId
            { r with status := UserJobStatus.DISCARDED } rows),
        ?_, ?_, rfl, ?_, ?_, ?_⟩
      · simp [updateJobStatus, hjob, hfind]
      · simp [updateJobStatus, hjob, hfind1]
      · rw [countPair_replaceFirst userId jobId _ hm2,
          countPair_replaceFirst userId jobId _ hm1]
        have h1 := countPair_pos_of_some hfind
        have h2 := hinv userId jobId
        omega
      · intro u j
        rw [countPair_replaceFirst userId jobId _ hm2,
          countPair_replaceFirst userId jobId _ hm1]
        exact hinv u j
      · rw [findUserJob_replaceFirst _ hfind1 hm2]
        rfl

/-- Concrete job used by witnesses. -/
def c4job : Job :=
  Job.mk 5 "Backend Dev" "Acme" "Build APIs" [] 1000 2000 "USD" "Quito"
    true "full-time" "Technology" 10 true

/-- Witness for C4: discarding then marking interested job 5 for user 0
against an empty relation store. -/
theorem c4_discard_then_interested_unique_witness :
    ∃ r1 rows1 r2 rows2,
      updateJobStatus [c4job] [] 0 5 "DISCARDED" = .ok (r1, rows1) ∧
      updateJobStatus [c4job] rows1 0 5 "INTERESTED" = .ok (r2, rows2) ∧
      r2.status = UserJobStatus.INTERESTED ∧
      countPair rows2 0 5 = 1 ∧
      (∀ u j, countPair rows2 u j ≤ 1) ∧
      (findUserJob rows2 0 5).map UserJob.status =
        some UserJobStatus.INTERESTED :=
  c4_discard_then_interested_unique [c4job] [] 0 5 c4job rfl
    (by intro u j; simp [countPair])

/-! ### Claim C2 -/

/-- The generated application link is never the empty string: it contains
the literal `/apply/` segment. -/
theorem appLink_ne_empty (baseUrl : String) (jobId : Nat)
    (uniqueId : String) :
    (baseUrl ++ "/apply/" ++ toString jobId ++ "/" ++ uniqueId) ≠ "" := by
  intro h
  have h1 := congrArg String.length h
  have h2 : ("/apply/" : String).length = 7 := rfl
  simp only [String.length_append] at h1
  rw [h2] at h1
  simp at h1

/-- After the recount (`setLinks`) and the controller increment
(`incLinks`), an existing user's stored counter is the recount plus one. -/
theorem getLinksGenerated_incLinks_setLinks (users : List SUser)
    (userId n : Nat)
    (hex : (users.find? (fun u => u.id == userId)).isSome = true) :
    getLinksGenerated (incLinks (setLinks users userId n) userId) userId =
      some (n + 1) := by
  induction users with
  | nil => simp [List.find?] at hex
  | cons u rest ih =>
      by_cases hu : (u.id == userId) = true
      · unfold setLinks incLinks getLinksGenerated
        simp only [List.map_cons]
        rw [if_pos hu]
        have hu2 : (({ u with linksGenerated := n } : SUser).id == userId)
            = true := hu
        rw [if_pos hu2]
        rw [List.find?_cons_of_pos _ (by exact hu)]
        rfl
      · unfold setLinks incLinks getLinksGenerated
        simp only [List.map_cons]
        rw [if_neg hu, if_neg hu]
        rw [List.find?_cons_of_neg _ (by simpa using hu)]
        have hex2 : (rest.find? (fun v => v.id == userId)).isSome = true := by
          have hufalse : (u.id == userId) = false := by simpa using hu
          unfold List.find? at hex
          rw [hufalse] at hex
          exact hex
        have := ih hex2
        unfold setLinks incLinks getLinksGenerated at this
        exact this

/-- Claim C2 (amended): after job-link "create" (which records a PENDING
JOB_LINK transaction) and "complete" with the returned transaction id, the
pair's UserJob row exists with status APPLIED and a non-empty
`generatedLink`.  The final `linksGenerated` counter, however, is the
recounted number of link-carrying rows plus one (the service stores the
recount, then the controller additionally increments), not the previous
value plus one: for a fresh user the pair of calls moves the counter from 0
to 2 (see the counterexample). -/
theorem c2_create_complete_applied_link
    (jobs : List Job) (rows : List UserJob) (users : List SUser)
    (txns : List Txn) (userId jobId : Nat) (uniqueId baseUrl ref : String)
    (job : Job) (hjob : findById jobs jobId = some job)
    (hex : (users.find? (fun u => u.id == userId)).isSome = true) :
    ((recordTransaction txns userId TxnType.JOB_LINK 1 ref
        (some jobId)).1.status = TxnStatus.PENDING) ∧
    ((recordTransaction txns userId TxnType.JOB_LINK 1 ref
        (some jobId)).1.type = TxnType.JOB_LINK) ∧
    (∀ txnId, ∃ r1 rows1 users1,
      completeJobLink jobs rows users userId jobId txnId uniqueId baseUrl =
        ({ status := 200, link := r1.generatedLink }, rows1, users1) ∧
      r1.status = UserJobStatus.APPLIED ∧
      (∃ s, r1.generatedLink = some s ∧ s ≠ "") ∧
      findUserJob rows1 userId jobId = some r1 ∧
      getLinksGenerated users1 userId =
        some (linkCount rows1 userId + 1)) := by
  refine ⟨rfl, rfl, ?_⟩
  intro txnId
  cases hfind : findUserJob rows userId jobId with
  | none =>
      refine ⟨UserJob.mk userId jobId UserJobStatus.APPLIED
        (some (baseUrl ++ "/apply/" ++ toString jobId ++ "/" ++ uniqueId))
        (some txnId),
        rows ++ [UserJob.mk userId jobId UserJobStatus.APPLIED
          (some (baseUrl ++ "/apply/" ++ toString jobId ++ "/" ++ uniqueId))
          (some txnId)],
        incLinks (setLinks users userId (linkCount (rows ++ [UserJob.mk
          userId jobId UserJobStatus.APPLIED (some (baseUrl ++ "/apply/" ++
          toString jobId ++ "/" ++ uniqueId)) (some txnId)]) userId)) userId,
        ?_, rfl, ?_, ?_, ?_⟩
      · simp [completeJobLink, generateJobLink, hjob, hfind,
          updateUserStatistics]
      · exact ⟨_, rfl, appLink_ne_empty baseUrl jobId uniqueId⟩
      · exact findUserJob_append_of_none hfind (by simp [matchPair])
      · exact getLinksGenerated_incLinks_setLinks users userId _ hex
  | some r =>
      have hmr : matchPair r userId jobId = true :=
        matchPair_of_findUserJob hfind
      have hm1 : matchPair { r with
          generatedLink := some (baseUrl ++ "/apply/" ++ toString jobId ++
            "/" ++ uniqueId),
          status := UserJobStatus.APPLIED,
          transactionId := some txnId } userId jobId = true := hmr
      refine ⟨{ r with
          generatedLink := some (baseUrl ++ "/apply/" ++ toString jobId ++
            "/" ++ uniqueId),
          status := UserJobStatus.APPLIED,
          transactionId := some txnId },
        replaceFirstUserJob userId jobId { r with
          generatedLink := some (baseUrl ++ "/apply/" ++ toString jobId ++
            "/" ++ uniqueId),
          status := UserJobStatus.APPLIED,
          transactionId := some txnId } rows,
        incLinks (setLinks users userId (linkCount (replaceFirstUserJob
          userId jobId { r with
            generatedLink := some (baseUrl ++ "/apply/" ++ toString jobId ++
              "/" ++ uniqueId),
            status := UserJobStatus.APPLIED,
            transactionId := some txnId } rows) userId)) userId,
        ?_, rfl, ?_, ?_, ?_⟩
      · simp [completeJobLink, generateJobLink, hjob, hfind,
          updateUserStatistics]
      · exact ⟨_, rfl, appLink_ne_empty baseUrl jobId uniqueId⟩
      · exact findUserJob_replaceFirst _ hfind hm1
      · exact getLinksGenerated_incLinks_setLinks users userId _ hex

/-- Claim C2 counterexample: for a fresh user (counter 0, no rows), the
create/complete pair leaves `linksGenerated` at 2, not 1: the service
recounts (1) and the controller increments again (2). -/
theorem c2_first_pair_increments_by_two :
    ((recordTransaction [] 0 TxnType.JOB_LINK 1 "ref"
        (some 5)).1.status = TxnStatus.PENDING) ∧
    (getLinksGenerated [SUser.mk 0 0] 0 = some 0) ∧
    (getLinksGenerated (completeJobLink [c4job] [] [SUser.mk 0 0] 0 5
        (recordTransaction [] 0 TxnType.JOB_LINK 1 "ref" (some 5)).1.id
        "abc123" "http://localhost:3000").2.2 0 = some 2) ∧
    (getLinksGenerated (completeJobLink [c4job] [] [SUser.mk 0 0] 0 5
        (recordTransaction [] 0 TxnType.JOB_LINK 1 "ref" (some 5)).1.id
        "abc123" "http://localhost:3000").2.2 0 ≠ some (0 + 1)) := by
  refine ⟨rfl, rfl, rfl, ?_⟩
  decide

/-- Witness for C2: the amended theorem at a concrete store (job 5, fresh
user 0, empty relation store). -/
theorem c2_create_complete_applied_link_witness :
    ((recordTransaction [] 0 TxnType.JOB_LINK 1 "ref"
        (some 5)).1.status = TxnStatus.PENDING) ∧
    ((recordTransaction [] 0 TxnType.JOB_LINK 1 "ref"
        (some 5)).1.type = TxnType.JOB_LINK) ∧
    (∀ txnId, ∃ r1 rows1 users1,
      completeJobLink [c4job] [] [SUser.mk 0 0] 0 5 txnId "abc123"
          "http://localhost:3000" =
        ({ status := 200, link := r1.generatedLink }, rows1, users1) ∧
      r1.status = UserJobStatus.APPLIED ∧
      (∃ s, r1.generatedLink = some s ∧ s ≠ "") ∧
      findUserJob rows1 0 5 = some r1 ∧
      getLinksGenerated users1 0 = some (linkCount rows1 0 + 1)) :=
  c2_create_complete_applied_link [c4job] [] [SUser.mk 0 0] [] 0 5
    "abc123" "http://localhost:3000" "ref" c4job rfl rfl

/-! ### Job listing with filters and pagination (`JobService.getJobs`) -/

/-- Whether `p` starts the list `l`. -/
def leadsWith : List Char → List Char → Bool
  | [], _ => true
  | _ :: _, [] => false
  | a :: as, b :: bs => a == b && leadsWith as bs

/-- Whether `p` occurs inside `l` as a contiguous run. -/
def hasSub (p : List Char) : List Char → Bool
  | [] => p.isEmpty
  | c :: cs => leadsWith p (c :: cs) || hasSub p cs

/-- Case-insensitive substring test, the shallow reading of the
`new RegExp(pattern, i)` matches the code builds from plain-text query
parameters. -/
def containsCI (hay pat : String) : Bool :=
  hasSub pat.toLower.toList hay.toLower.toList

/-- The query parameters `getJobs` reads (absent keys are `none`; JS treats
the empty string as falsy, skipping the filter). -/
structure Filters where
  search : Option String
  category : Option String
  type : Option String
  location : Option String
  remote : Option String
  minSalary : Option Nat
deriving DecidableEq, Repr

/-- The empty filter set. -/
def noFilters : Filters :=
  { search := none, category := none, type := none, location := none,
    remote := none, minSalary := none }

/-- The Mongo query `getJobs` builds: search across title, description,
company and category; exact category and type; location substring; remote
equality against the string `true`; minimum-salary floor; and the
active-only restriction when the schema has an `active` path. -/
def matchesFilters (hasActive : Bool) (f : Filters) (j : Job) : Bool :=
  (match f.search with
   | none => true
   | some s =>
       if s == "" then true
       else containsCI j.title s || containsCI j.description s ||
         containsCI j.company s || containsCI j.category s) &&
  (match f.category with
   | none => true
   | some c => if c == "" then true else j.category == c) &&
  (match f.type with
   | none => true
   | some t => if t == "" then true else j.type == t) &&
  (match f.location with
   | none => true
   | some l => if l == "" then true else containsCI j.location l) &&
  (match f.remote with
   | none => true
   | some r => if r == "" then true else j.remote == (r == "true")) &&
  (match f.minSalary with
   | none => true
   | some m => m ≤ j.salaryMin) &&
  (if hasActive then j.active else true)

/-- Insertion step of the `postedAt` descending sort. -/
def insertByPosted (j : Job) : List Job → List Job
  | [] => [j]
  | k :: rest =>
      if k.postedAt ≤ j.postedAt then j :: k :: rest
      else k :: insertByPosted j rest

/-- `.sort({ postedAt: -1 })`. -/
def sortByPostedDesc : List Job → List Job
  | [] => []
  | j :: rest => insertByPosted j (sortByPostedDesc rest)

/-- `parseInt(x) || d`: an absent or zero value falls back to the
default. -/
def jsParsePos (v : Option Nat) (d : Nat) : Nat :=
  match v with
  | none => d
  | some 0 => d
  | some n => n

/-- Result shape of `getJobs`: the page of jobs plus the pagination
object. -/
structure GetJobsRes where
  jobs : List Job
  total : Nat
  page : Nat
  limit : Nat
  pages : Nat
deriving DecidableEq, Repr

/-- `JobService.getJobs`: filter, sort by `postedAt` descending, skip
`(page-1)*limit`, take `limit`, and report the total match count and
`Math.ceil(total/limit)` pages.  Page defaults to 1 and limit to 10. -/
def getJobs (hasActive : Bool) (jobs : List Job) (f : Filters)
    (page limit : Option Nat) : GetJobsRes :=
  let p := jsParsePos page 1
  let l := jsParsePos limit 10
  let matching := jobs.filter (matchesFilters hasActive f)
  let sorted := sortByPostedDesc matching
  let skip := (p - 1) * l
  { jobs := (sorted.drop skip).take l,
    total := matching.length,
    page := p,
    limit := l,
    pages := (matching.length + l - 1) / l }

/-- Inserting preserves the element count. -/
theorem length_insertByPosted (j : Job) (l : List Job) :
    (insertByPosted j l).length = l.length + 1 := by
  induction l with
  | nil => rfl
  | cons k rest ih =>
      unfold insertByPosted
      by_cases h : (k.postedAt ≤ j.postedAt)
      · rw [if_pos h]; rfl
      · rw [if_neg h]
        simp [ih]

/-- Sorting preserves the element count. -/
theorem length_sortByPostedDesc (l : List Job) :
    (sortByPostedDesc l).length = l.length := by
  induction l with
  | nil => rfl
  | cons j rest ih =>
      unfold sortByPostedDesc
      rw [length_insertByPosted, ih]
      rfl

/-- The defaulted page and limit are positive when the default is. -/
theorem jsParsePos_pos (v : Option Nat) (d : Nat) (hd : 0 < d) :
    0 < jsParsePos v d := by
  unfold jsParsePos
  match v with
  | none => exact hd
  | some 0 => exact hd
  | some (n + 1) => exact Nat.succ_pos n

/-! ### Claim C7 -/

/-- Twenty-five active jobs, matching no extra filters. -/
def jobs25 : List Job :=
  (List.range 25).map (fun i => { c4job with id := i, postedAt := i })

/-- Claim C7: against 25 seeded jobs with no extra filters, page 2 with
limit 10 returns exactly 10 jobs, total 25 and 3 pages; in general the page
defaults to 1 and the limit to 10, `pages` is the ceiling of total over
limit (stated both through the ceiling-division adjoint and its Galois
characterisation), the returned slice drops `(page-1)*limit` jobs of the
sorted matches, and its length is `min limit (total - (page-1)*limit)`. -/
theorem c7_getJobs_pagination :
    ((getJobs true jobs25 noFilters (some 2) (some 10)).jobs.length = 10) ∧
    ((getJobs true jobs25 noFilters (some 2) (some 10)).total = 25) ∧
    ((getJobs true jobs25 noFilters (some 2) (some 10)).pages = 3) ∧
    (∀ hasActive jobs f page limit,
      (getJobs hasActive jobs f page limit).page = jsParsePos page 1 ∧
      (getJobs hasActive jobs f page limit).limit = jsParsePos limit 10 ∧
      (getJobs hasActive jobs f page limit).pages =
        (getJobs hasActive jobs f page limit).total ⌈/⌉
          (getJobs hasActive jobs f page limit).limit ∧
      (∀ k, (getJobs hasActive jobs f page limit).pages ≤ k ↔
        (getJobs hasActive jobs f page limit).total ≤
          (getJobs hasActive jobs f page limit).limit * k) ∧
      (getJobs hasActive jobs f page limit).jobs =
        ((sortByPostedDesc (jobs.filter (matchesFilters hasActive f))).drop
          (((getJobs hasActive jobs f page limit).page - 1) *
            (getJobs hasActive jobs f page limit).limit)).take
          (getJobs hasActive jobs f page limit).limit ∧
      (getJobs hasActive jobs f page limit).jobs.length =
        min (getJobs hasActive jobs f page limit).limit
          ((getJobs hasActive jobs f page limit).total -
            ((getJobs hasActive jobs f page limit).page - 1) *
              (getJobs hasActive jobs f page limit).limit)) := by
  refine ⟨rfl, rfl, rfl, ?_⟩
  intro hasActive jobs f page limit
  refine ⟨rfl, rfl, ?_, ?_, rfl, ?_⟩
  · rw [Nat.ceilDiv_eq_add_pred_div]
    rfl
  · intro k
    have hpos : 0 < (getJobs hasActive jobs f page limit).limit :=
      jsParsePos_pos limit 10 (by decide)
    have hceil : (getJobs hasActive jobs f page limit).pages =
        (getJobs hasActive jobs f page limit).total ⌈/⌉
          (getJobs hasActive jobs f page limit).limit := by
      rw [Nat.ceilDiv_eq_add_pred_div]
      rfl
    rw [hceil]
    exact ceilDiv_le_iff_le_mul hpos
  · simp [getJobs, List.length_take, List.length_drop,
      length_sortByPostedDesc]

/-! ### AI chat (`chat.service.js`, `chat.controller.js`) -/

/-- Message roles of the Chat schema. -/
inductive ChatRole where
  | USER
  | AI
deriving DecidableEq, Repr

/-- One message of a chat. -/
structure ChatMsg where
  role : ChatRole
  content : String
deriving DecidableEq, Repr

/-- A Chat document. -/
structure Chat where
  id : Nat
  userId : Nat
  jobId : Option Nat
  messages : List ChatMsg
  transactionId : Nat
deriving DecidableEq, Repr

/-- `ChatModel.findById`. -/
def findChat (chats : List Chat) (chatId : Nat) : Option Chat :=
  chats.find? (fun c => c.id == chatId)

/-- `chat.save()`: replace the first stored chat with this id. -/
def replaceFirstChat (chatId : Nat) (c1 : Chat) : List Chat → List Chat
  | [] => []
  | c :: rest =>
      if c.id == chatId then c1 :: rest
      else c :: replaceFirstChat chatId c1 rest

/-- The static apology `ChatService.getAIResponse` substitutes when the
provider call fails. -/
def fallbackMessage : String :=
  "I\x27m sorry, I\x27m having trouble generating a response right now. Please try again later."

/-- `ChatService.getAIResponse`: the completion text of the single provider
request, or the fixed fallback string when that request throws. -/
def getAIResponse (aiOutcome : Except String String) : String :=
  match aiOutcome with
  | .ok text => text
  | .error _ => fallbackMessage

/-- `ChatService.sendMessage`: find the chat (a missing chat surfaces as
the re-wrapped service error), append and persist the USER message, issue
one provider request (its outcome is `aiOutcome`; the job context only
shapes the request payload), append and persist the AI message, and return
the updated chat. -/
def sendMessage (chats : List Chat) (chatId : Nat) (message : String)
    (aiOutcome : Except String String) : Except String (Chat × List Chat) :=
  match findChat chats chatId with
  | none => .error "Failed to send message"
  | some c =>
      let c1 : Chat :=
        { c with messages := c.messages ++ [ChatMsg.mk ChatRole.USER message] }
      let chats1 := replaceFirstChat chatId c1 chats
      let aiText := getAIResponse aiOutcome
      let c2 : Chat :=
        { c1 with messages := c1.messages ++ [ChatMsg.mk ChatRole.AI aiText] }
      let chats2 := replaceFirstChat chatId c2 chats1
      .ok (c2, chats2)

/-- `ChatController.sendMessage`: run the service first, only then compare
the chat owner against the authenticated user, answering 403 on a
mismatch.  The service has already persisted both messages by then. -/
def sendMessageCtrl (chats : List Chat) (callerId chatId : Nat)
    (message : String) (aiOutcome : Except String String) :
    Nat × List Chat :=
  match sendMessage chats chatId message aiOutcome with
  | .error _ => (500, chats)
  | .ok (c2, chats2) =>
      if c2.userId != callerId then (403, chats2)
      else (200, chats2)

/-- After replacing the stored chat of an id, looking the id up finds the
replacement. -/
theorem findChat_replaceFirst {chats : List Chat} {chatId : Nat} {c : Chat}
    (c1 : Chat) (h : findChat chats chatId = some c)
    (hm : (c1.id == chatId) = true) :
    findChat (replaceFirstChat chatId c1 chats) chatId = some c1 := by
  induction chats with
  | nil => exact Option.noConfusion h
  | cons c0 rest ih =>
      by_cases h0 : (c0.id == chatId) = true
      · unfold replaceFirstChat
        rw [if_pos h0]
        unfold findChat
        simp [List.find?, hm]
      · unfold replaceFirstChat
        rw [if_neg h0]
        unfold findChat at h ⊢
        rw [List.find?_cons_of_neg _ (by simpa using h0)] at h
        rw [List.find?_cons_of_neg _ (by simpa using h0)]
        exact ih h

/-! ### Claim C8 -/

/-- Claim C8: when the chat exists and the provider call fails, sendMessage
still succeeds; the persisted chat gained the USER message and an AI
message whose content is the fixed fallback string, and no error reaches
the caller. -/
theorem c8_ai_failure_appends_fallback
    (chats : List Chat) (chatId : Nat) (message err : String) (c : Chat)
    (hfind : findChat chats chatId = some c) :
    ∃ c2 chats2,
      sendMessage chats chatId message (.error err) = .ok (c2, chats2) ∧
      c2.messages = c.messages ++
        [ChatMsg.mk ChatRole.USER message,
         ChatMsg.mk ChatRole.AI fallbackMessage] ∧
      findChat chats2 chatId = some c2 := by
  have hcid : (c.id == chatId) = true := by
    unfold findChat at hfind
    have h2 := List.find?_some hfind
    exact h2
  have h1 : findChat (replaceFirstChat chatId
      { c with messages := c.messages ++ [ChatMsg.mk ChatRole.USER message] }
      chats) chatId =
      some { c with
        messages := c.messages ++ [ChatMsg.mk ChatRole.USER message] } :=
    findChat_replaceFirst _ hfind hcid
  refine ⟨{ c with messages := (c.messages ++
      [ChatMsg.mk ChatRole.USER message]) ++
      [ChatMsg.mk ChatRole.AI fallbackMessage] },
    replaceFirstChat chatId
      { c with messages := (c.messages ++
        [ChatMsg.mk ChatRole.USER message]) ++
        [ChatMsg.mk ChatRole.AI fallbackMessage] }
      (replaceFirstChat chatId
        { c with messages := c.messages ++
          [ChatMsg.mk ChatRole.USER message] } chats),
    ?_, ?_, ?_⟩
  · simp [sendMessage, hfind, getAIResponse]
  · simp
  · exact findChat_replaceFirst _ h1 hcid

/-- Witness for C8: one stored chat, a failing provider call. -/
theorem c8_ai_failure_appends_fallback_witness :
    ∃ c2 chats2,
      sendMessage [Chat.mk 1 0 none [] 9] 1 "hi" (.error "boom") =
        .ok (c2, chats2) ∧
      c2.messages = ([] : List ChatMsg) ++
        [ChatMsg.mk ChatRole.USER "hi",
         ChatMsg.mk ChatRole.AI fallbackMessage] ∧
      findChat chats2 1 = some c2 :=
  c8_ai_failure_appends_fallback [Chat.mk 1 0 none [] 9] 1 "hi" "boom"
    (Chat.mk 1 0 none [] 9) rfl

/-! ### Claim C10 -/

/-- Claim C10: a sendMessage call on a chat owned by another user is
answered 403, but only after the mutation is persisted: in the store the
controller leaves behind, the chat carries the caller's USER message and
the AI reply appended. -/
theorem c10_sendMessage_mutates_before_authz
    (chats : List Chat) (callerId chatId : Nat) (message : String)
    (aiOutcome : Except String String) (c : Chat)
    (hfind : findChat chats chatId = some c)
    (howner : c.userId ≠ callerId) :
    (sendMessageCtrl chats callerId chatId message aiOutcome).1 = 403 ∧
    ∃ c2, findChat (sendMessageCtrl chats callerId chatId message
        aiOutcome).2 chatId = some c2 ∧
      c2.messages = c.messages ++
        [ChatMsg.mk ChatRole.USER message,
         ChatMsg.mk ChatRole.AI (getAIResponse aiOutcome)] := by
  have hcid : (c.id == chatId) = true := by
    unfold findChat at hfind
    have h2 := List.find?_some hfind
    exact h2
  have hbne : (c.userId != callerId) = true := by simpa using howner
  have h1 : findChat (replaceFirstChat chatId
      { c with messages := c.messages ++ [ChatMsg.mk ChatRole.USER message] }
      chats) chatId =
      some { c with
        messages := c.messages ++ [ChatMsg.mk ChatRole.USER message] } :=
    findChat_replaceFirst _ hfind hcid
  have hctrl : sendMessageCtrl chats callerId chatId message aiOutcome =
      (403, replaceFirstChat chatId
        { c with messages := (c.messages ++
          [ChatMsg.mk ChatRole.USER message]) ++
          [ChatMsg.mk ChatRole.AI (getAIResponse aiOutcome)] }
        (replaceFirstChat chatId
          { c with messages := c.messages ++
            [ChatMsg.mk ChatRole.USER message] } chats)) := by
    simp [sendMessageCtrl, sendMessage, hfind, hbne]
  rw [hctrl]
  refine ⟨rfl, ?_⟩
  refine ⟨{ c with messages := (c.messages ++
      [ChatMsg.mk ChatRole.USER message]) ++
      [ChatMsg.mk ChatRole.AI (getAIResponse aiOutcome)] }, ?_, ?_⟩
  · exact findChat_replaceFirst _ h1 hcid
  · simp

/-- Witness for C10: a chat owned by user 1, mutated and 403-answered for
caller 0. -/
theorem c10_sendMessage_mutates_before_authz_witness :
    (sendMessageCtrl [Chat.mk 1 1 none [] 9] 0 1 "hey"
        (.ok "sure")).1 = 403 ∧
    ∃ c2, findChat (sendMessageCtrl [Chat.mk 1 1 none [] 9] 0 1 "hey"
        (.ok "sure")).2 1 = some c2 ∧
      c2.messages = ([] : List ChatMsg) ++
        [ChatMsg.mk ChatRole.USER "hey",
         ChatMsg.mk ChatRole.AI (getAIResponse (.ok "sure"))] :=
  c10_sendMessage_mutates_before_authz [Chat.mk 1 1 none [] 9] 0 1 "hey"
    (.ok "sure") (Chat.mk 1 1 none [] 9) rfl (by decide)

/-! ### Profile update (`profile.service.js`, `profile.controller.js`) -/

/-- `contactInfo` subdocument. -/
structure ContactInfo where
  email : Option String
  phone : Option String
deriving DecidableEq, Repr

/-- `professionalInfo` subdocument (availability entries kept opaque). -/
structure ProfessionalInfo where
  hourlyRate : Nat
  skills : List String
  categories : List String
  availability : List String
  experience : Option String
  education : Option String
deriving DecidableEq, Repr

/-- `preferences` subdocument (settings objects kept opaque). -/
structure Preferences where
  privacySettings : String
  notificationSettings : String
  jobCategories : List String
  jobTypes : List String
  locations : List String
  remoteOnly : Bool
deriving DecidableEq, Repr

/-- `statistics` subdocument. -/
structure Statistics where
  linksGenerated : Nat
  paymentsProcessed : Nat
  rating : Nat
  reviewCount : Nat
deriving DecidableEq, Repr

/-- A full User document as the profile service sees it. -/
structure PUser where
  id : Nat
  worldIdNullifierHash : Option String
  nickname : String
  walletAddress : Option String
  profilePicture : Option String
  contactInfo : ContactInfo
  professionalInfo : ProfessionalInfo
  preferences : Preferences
  statistics : Statistics
  createdAt : Nat
  updatedAt : Nat
deriving DecidableEq, Repr

/-- A profile-update request body: any subset of the allowlisted keys, plus
arbitrary extra keys a client may send for fields it must not set. -/
structure ProfileBody where
  nickname : Option String
  contactInfo : Option ContactInfo
  professionalInfo : Option ProfessionalInfo
  preferences : Option Preferences
  walletAddress : Option (Option String)
  worldIdNullifierHash : Option (Option String)
  statistics : Option Statistics
  profilePicture : Option (Option String)
  createdAt : Option Nat
deriving DecidableEq, Repr

/-- `UserModel.findById` for profile users. -/
def findPUser (users : List PUser) (userId : Nat) : Option PUser :=
  users.find? (fun u => u.id == userId)

/-- Persisting the updated user document. -/
def replaceFirstPUser (userId : Nat) (u1 : PUser) :
    List PUser → List PUser
  | [] => []
  | u :: rest =>
      if u.id == userId then u1 :: rest
      else u :: replaceFirstPUser userId u1 rest

/-- `ProfileService.updateUserProfile`: copy only the allowlisted fields
(`nickname`, `contactInfo`, `professionalInfo`, `preferences`) that the
body defines, stamp `updatedAt`, and `$set` exactly those onto the stored
document; every other body key is dropped.  A missing user surfaces as the
re-wrapped service error. -/
def updateUserProfile (users : List PUser) (userId : Nat)
    (body : ProfileBody) (now : Nat) : Except String (PUser × List PUser) :=
  match findPUser users userId with
  | none => .error "Failed to update user profile"
  | some u =>
      let u1 : PUser :=
        { u with
          nickname := body.nickname.getD u.nickname,
          contactInfo := body.contactInfo.getD u.contactInfo,
          professionalInfo := body.professionalInfo.getD u.professionalInfo,
          preferences := body.preferences.getD u.preferences,
          updatedAt := now }
      .ok (u1, replaceFirstPUser userId u1 users)

/-- After persisting the update, looking the user up finds the updated
document. -/
theorem findPUser_replaceFirst {users : List PUser} {userId : Nat}
    {u : PUser} (u1 : PUser) (h : findPUser users userId = some u)
    (hm : (u1.id == userId) = true) :
    findPUser (replaceFirstPUser userId u1 users) userId = some u1 := by
  induction users with
  | nil => exact Option.noConfusion h
  | cons u0 rest ih =>
      by_cases h0 : (u0.id == userId) = true
      · unfold replaceFirstPUser
        rw [if_pos h0]
        unfold findPUser
        simp [List.find?, hm]
      · unfold replaceFirstPUser
        rw [if_neg h0]
        unfold findPUser at h ⊢
        rw [List.find?_cons_of_neg _ (by simpa using h0)] at h
        rw [List.find?_cons_of_neg _ (by simpa using h0)]
        exact ih h

/-! ### Claim C9 -/

/-- Claim C9: a profile update on an existing user succeeds and can change
only `nickname`, `contactInfo`, `professionalInfo`, `preferences` and the
`updatedAt` stamp; `walletAddress`, `worldIdNullifierHash`, `statistics`,
`profilePicture`, `id` and `createdAt` of the stored document are unchanged
whatever extra keys the body carries, and the store holds the updated
document. -/
theorem c9_profile_update_allowlist
    (users : List PUser) (userId : Nat) (body : ProfileBody) (now : Nat)
    (u : PUser) (hfind : findPUser users userId = some u) :
    ∃ u1 users1,
      updateUserProfile users userId body now = .ok (u1, users1) ∧
      u1.walletAddress = u.walletAddress ∧
      u1.worldIdNullifierHash = u.worldIdNullifierHash ∧
      u1.statistics = u.statistics ∧
      u1.profilePicture = u.profilePicture ∧
      u1.id = u.id ∧
      u1.createdAt = u.createdAt ∧
      u1.nickname = body.nickname.getD u.nickname ∧
      u1.contactInfo = body.contactInfo.getD u.contactInfo ∧
      u1.professionalInfo = body.professionalInfo.getD u.professionalInfo ∧
      u1.preferences = body.preferences.getD u.preferences ∧
      u1.updatedAt = now ∧
      findPUser users1 userId = some u1 := by
  have hid : (u.id == userId) = true := by
    unfold findPUser at hfind
    have h2 := List.find?_some hfind
    exact h2
  refine ⟨{ u with
      nickname := body.nickname.getD u.nickname,
      contactInfo := body.contactInfo.getD u.contactInfo,
      professionalInfo := body.professionalInfo.getD u.professionalInfo,
      preferences := body.preferences.getD u.preferences,
      updatedAt := now },
    replaceFirstPUser userId { u with
      nickname := body.nickname.getD u.nickname,
      contactInfo := body.contactInfo.getD u.contactInfo,
      professionalInfo := body.professionalInfo.getD u.professionalInfo,
      preferences := body.preferences.getD u.preferences,
      updatedAt := now } users,
    ?_, rfl, rfl, rfl, rfl, rfl, rfl, rfl, rfl, rfl, rfl, rfl, ?_⟩
  · simp [updateUserProfile, hfind]
  · exact findPUser_replaceFirst _ hfind hid

/-- Concrete user for the C9 witness. -/
def c9user : PUser :=
  PUser.mk 3 (some "HASH") "alice" (some "0xA") none
    (ContactInfo.mk none none)
    (ProfessionalInfo.mk 0 [] [] [] none none)
    (Preferences.mk "" "" [] [] [] false)
    (Statistics.mk 0 0 0 0) 100 100

/-- Hostile request body for the C9 witness: it tries to overwrite the
wallet address, the nullifier hash and the statistics. -/
def c9body : ProfileBody :=
  ProfileBody.mk (some "bob") none none none
    (some (some "0xEVIL")) (some (some "FAKE"))
    (some (Statistics.mk 99 99 99 99)) (some (some "pic")) (some 0)

/-- Witness for C9: the hostile body changes only the nickname and the
`updatedAt` stamp of the stored user. -/
theorem c9_profile_update_allowlist_witness :
    ∃ u1 users1,
      updateUserProfile [c9user] 3 c9body 200 = .ok (u1, users1) ∧
      u1.walletAddress = c9user.walletAddress ∧
      u1.worldIdNullifierHash = c9user.worldIdNullifierHash ∧
      u1.statistics = c9user.statistics ∧
      u1.profilePicture = c9user.profilePicture ∧
      u1.id = c9user.id ∧
      u1.createdAt = c9user.createdAt ∧
      u1.nickname = c9body.nickname.getD c9user.nickname ∧
      u1.contactInfo = c9body.contactInfo.getD c9user.contactInfo ∧
      u1.professionalInfo =
        c9body.professionalInfo.getD c9user.professionalInfo ∧
      u1.preferences = c9body.preferences.getD c9user.preferences ∧
      u1.updatedAt = 200 ∧
      findPUser users1 3 = some u1 :=
  c9_profile_update_allowlist [c9user] 3 c9body 200 c9user rfl
